import Mathlib

set_option autoImplicit false

/-!
Verification development for the anomaly-detection engine of the
LLM-Integration-Pipeline repository (`app/agents/anomaly_detector.py`,
`app/agents/base.py`).

The Python code is shallowly embedded:
* record field values (`Dict[str, Any]` entries) are modelled by `PyVal`
  (string / int / bool / None; Python floats are omitted because no claim
  depends on `str()` rendering of a float, and numeric strings exercise the
  same parse paths);
* exceptions are modelled by `Except Unit`;
* the external language-model oracle (`LLMManager.generate_response`) is a
  parameter: each of the four call sites of `analyze` receives an
  `Except Unit String` describing the outcome of that call (error = the call
  raised / timed out);
* `datetime.utcnow()` is modelled by an explicit `now : Nat` parameter;
* `datetime.fromisoformat` is modelled by an abstract parameter
  `parseTs : String → Option PyDateTime` (it is a CPython library routine,
  not code of this repository);
* `sklearn.ensemble.IsolationForest` is modelled by an abstract parameter
  producing one `(label, score)` pair per row (again an external library).
-/

/-- Model of a Python scalar value stored in a log record. -/
inductive PyVal where
  | str (s : String)
  | int (n : Int)
  | bool (b : Bool)
  | none_
deriving DecidableEq, Repr

/-- A log record: `Dict[str, Any]`, modelled as an association list with
first-match lookup (records are built with distinct keys). -/
abbrev Record := List (String × PyVal)

/-- First-match association-list lookup, modelling `key in entry` /
`entry[key]`. -/
def rlookup (entry : Record) (k : String) : Option PyVal :=
  match entry with
  | [] => none
  | (k', v) :: rest => if k' = k then some v else rlookup rest k

/-- `entry.get(k, d)`. -/
def rlookupD (entry : Record) (k : String) (d : PyVal) : PyVal :=
  (rlookup entry k).getD d

/-- Python `str()` on a scalar value. -/
def pyStr : PyVal → String
  | .str s => s
  | .int n => toString n
  | .bool b => if b then "True" else "False"
  | .none_ => "None"

/-- Python truthiness of a scalar value. -/
def pyTruthy : PyVal → Bool
  | .str s => s ≠ ""
  | .int n => n ≠ 0
  | .bool b => b
  | .none_ => false

/-!
### Python `str.isdigit` versus `int()`

CPython's `str.isdigit()` is true for every character of Unicode category
`Numeric_Type=Digit` or `Numeric_Type=Decimal`, while `int()` only accepts
`Numeric_Type=Decimal` characters.  Superscript/subscript digits such as
U+00B2 (the SUPERSCRIPT TWO character) are `Digit` but not `Decimal`, so
`"²".isdigit()` is `True` while `int("²")` raises `ValueError`.  We model a
representative subset of the Unicode tables: ASCII digits and Arabic-Indic
digits (both decimal), and the superscript/subscript digits (digit, not
decimal).  This subset classifies correctly every character appearing in
this development.
-/

/-- Characters accepted by Python `int()` (Unicode `Numeric_Type=Decimal`);
modelled subset: ASCII digits and Arabic-Indic digits U+0660–U+0669. -/
def pyDecimalChar (c : Char) : Bool :=
  c.isDigit || (0x660 ≤ c.toNat && c.toNat ≤ 0x669)

/-- Digit characters that are not decimal (Unicode `Numeric_Type=Digit`
only): superscript digits U+00B9/U+00B2/U+00B3/U+2070/U+2074–U+2079 and
subscript digits U+2080–U+2089. -/
def pyDigitOnlyChar (c : Char) : Bool :=
  c.toNat = 0xB2 || c.toNat = 0xB3 || c.toNat = 0xB9 ||
  c.toNat = 0x2070 || (0x2074 ≤ c.toNat && c.toNat ≤ 0x2079) ||
  (0x2080 ≤ c.toNat && c.toNat ≤ 0x2089)

/-- Python `str.isdigit()`: non-empty and every character a digit
(decimal or digit-only). -/
def pyIsDigit (s : String) : Bool :=
  s ≠ "" && s.toList.all (fun c => pyDecimalChar c || pyDigitOnlyChar c)

/-- Numeric value of a decimal digit character in the modelled subset. -/
def pyDecimalVal (c : Char) : Nat :=
  if c.isDigit then c.toNat - '0'.toNat
  else if 0x660 ≤ c.toNat && c.toNat ≤ 0x669 then c.toNat - 0x660
  else 0

/-- Whether `int(s)` succeeds on a string that already passed
`str.isdigit()`: every character must be a decimal digit.  (The only call
site of `int` in the detector is guarded by `isdigit`, which excludes
signs and whitespace, so this captures exactly the guarded behavior.) -/
def pyIntSucceeds (s : String) : Bool :=
  s ≠ "" && s.toList.all pyDecimalChar

/-- Python `int(s)` under the `isdigit` guard: `ValueError` (modelled as
`Except.error`) when some character is a digit but not decimal. -/
def pyInt (s : String) : Except Unit Int :=
  if pyIntSucceeds s then
    .ok (s.toList.foldl (fun acc c => acc * 10 + pyDecimalVal c) 0)
  else .error ()

/-- Python `str.strip()` (default whitespace). -/
def pyStrip (s : String) : String := s.trim

/-- ASCII digit span: longest digit prefix and the rest. -/
def spanDigits : List Char → (List Char × List Char)
  | [] => ([], [])
  | c :: rest =>
    if c.isDigit then
      let (d, r) := spanDigits rest
      (c :: d, r)
    else ([], c :: rest)

/-- Value of a list of ASCII digits. -/
def digitsVal (l : List Char) : Nat :=
  l.foldl (fun acc c => acc * 10 + (c.toNat - '0'.toNat)) 0

/-- Parse the unsigned part of a Python float literal:
`digits`, `digits.digits?`, `.digits`, each optionally followed by an
exponent `e`/`E` with optional sign.  `inf`/`nan` spellings are not
modelled (they are not representable in `ℚ` and no claim depends on
them). -/
def parseUnsignedFloat (cs : List Char) : Option ℚ :=
  let (ip, r1) := spanDigits cs
  let (fp, r2) :=
    match r1 with
    | '.' :: rest =>
      let (d, r) := spanDigits rest
      (some d, r)
    | _ => (none, r1)
  if ip = [] ∧ (fp.getD []) = [] then none
  else
    let mant : ℚ := (digitsVal ip : ℚ) +
      (digitsVal (fp.getD []) : ℚ) / ((10 : ℚ) ^ (fp.getD []).length)
    match r2 with
    | [] => some mant
    | e :: rest =>
      if e = 'e' ∨ e = 'E' then
        let (esign, rest2) :=
          match rest with
          | '-' :: r => ((-1 : Int), r)
          | '+' :: r => ((1 : Int), r)
          | r => ((1 : Int), r)
        let (ed, r3) := spanDigits rest2
        if ed = [] ∨ r3 ≠ [] then none
        else some (mant * (10 : ℚ) ^ (esign * (digitsVal ed : Int)))
      else none

/-- Python `float(s)` on a string: strip whitespace, optional sign,
unsigned float literal. -/
def pyFloatParse (s : String) : Option ℚ :=
  match (pyStrip s).toList with
  | '-' :: rest => (parseUnsignedFloat rest).map (fun q => -q)
  | '+' :: rest => parseUnsignedFloat rest
  | cs => parseUnsignedFloat cs

/-- Python `float()` on a scalar value; `none` models a raised
`ValueError`/`TypeError`. -/
def pyFloat : PyVal → Option ℚ
  | .str s => pyFloatParse s
  | .int n => some n
  | .bool b => some (if b then 1 else 0)
  | .none_ => none

/-- Count of non-overlapping occurrences of `needle` in `hay`
(Python `str.count`), driven by a fuel argument bounded by the hay
length. -/
def countOccAux (needle : List Char) : Nat → List Char → Nat
  | 0, _ => 0
  | _, [] => 0
  | fuel + 1, c :: rest =>
    if needle.isPrefixOf (c :: rest) then
      1 + countOccAux needle fuel ((c :: rest).drop needle.length)
    else countOccAux needle fuel rest

/-- Python `hay.count(needle)` for a non-empty needle. -/
def countOcc (needle hay : String) : Nat :=
  countOccAux needle.toList hay.toList.length hay.toList

/-- Substring containment over character lists. -/
def containsSubList (n : List Char) : List Char → Bool
  | [] => n.isEmpty
  | c :: rest => n.isPrefixOf (c :: rest) || containsSubList n rest

/-- Substring containment (Python `needle in hay`). -/
def containsSub (needle : String) (hay : String) : Bool :=
  containsSubList needle.toList hay.toList

/-- Model of a parsed `datetime` value, with exactly the projections the
detector reads. -/
structure PyDateTime where
  year : Nat
  month : Nat
  day : Nat
  hour : Nat
  minute : Nat
  weekday : Nat
deriving DecidableEq, Repr

/-- `s.replace("Z", "+00:00")`, applied before `datetime.fromisoformat`. -/
def pyReplaceZ (s : String) : String := s.replace "Z" "+00:00"

/-!
### Feature extraction (`AnomalyDetectorAgent._extract_features`)
-/

/-- Temporal sub-vector: hour, weekday, day-of-month, month from the
`timestamp` field; zeros when the field is absent, is not a string
(`.replace` raises `AttributeError`, swallowed by the bare `except`), or
fails to parse. -/
def temporalFeatures (parseTs : String → Option PyDateTime) (entry : Record) :
    List ℚ :=
  match rlookup entry "timestamp" with
  | some (.str s) =>
    match parseTs (pyReplaceZ s) with
    | some dt => [(dt.hour : ℚ), dt.weekday, dt.day, dt.month]
    | none => [0, 0, 0, 0]
  | some _ => [0, 0, 0, 0]
  | none => [0, 0, 0, 0]

/-- Status sub-vector: `int(entry["status"]) if str(entry["status"]).isdigit() else 0`
plus 4xx / 5xx flags.  The `int` call is NOT inside a `try`, so a status
string that passes `isdigit` but is rejected by `int` (e.g. `"²"`) raises
out of `_extract_features`. -/
def statusFeatures (entry : Record) : Except Unit (List ℚ) :=
  match rlookup entry "status" with
  | none => .ok [0, 0, 0]
  | some v =>
    let s := pyStr v
    if pyIsDigit s then do
      let st ← pyInt s
      .ok [(st : ℚ),
           if 400 ≤ st ∧ st < 500 then 1 else 0,
           if 500 ≤ st ∧ st < 600 then 1 else 0]
    else .ok [0, 0, 0]

/-- Latency feature: `float(entry["response_time"])` inside `try`, default
0 on absence or parse failure. -/
def latencyFeature (entry : Record) : ℚ :=
  match rlookup entry "response_time" with
  | none => 0
  | some v => ((pyFloat v).getD 0)

/-- Text features: length of `str(message) + str(request)` and counts of
the literal markers. -/
def textFeatures (entry : Record) : List ℚ :=
  let t := pyStr (rlookupD entry "message" (.str "")) ++
           pyStr (rlookupD entry "request" (.str ""))
  [(t.length : ℚ), countOcc "ERROR" t, countOcc "WARN" t, countOcc "FATAL" t]

/-- One record's feature vector (`Except` models the uncaught `ValueError`
of the status slot). -/
def extractFeatureVector (parseTs : String → Option PyDateTime)
    (entry : Record) : Except Unit (List ℚ) := do
  let st ← statusFeatures entry
  .ok (temporalFeatures parseTs entry ++ st ++ [latencyFeature entry] ++
       textFeatures entry)

/-- `_extract_features`: one vector per record, aborting on the first
record whose status slot raises. -/
def extractFeatures (parseTs : String → Option PyDateTime) :
    List Record → Except Unit (List (List ℚ))
  | [] => .ok []
  | e :: rest => do
    let v ← extractFeatureVector parseTs e
    let vs ← extractFeatures parseTs rest
    .ok (v :: vs)

/-!
### JSON model and parser (embedding of `json.loads`)

`_parse_llm_response` feeds a substring of the oracle output to
`json.loads`.  We embed a standard JSON value type and a fuel-driven
recursive-descent parser.  `\uXXXX` escapes are not modelled (the parser
rejects them; no claim depends on such inputs).  Duplicate object keys
follow Python dict semantics: the value is overwritten in place.
-/

/-- JSON values. -/
inductive Json where
  | null
  | bool (b : Bool)
  | num (q : ℚ)
  | str (s : String)
  | arr (elems : List Json)
  | obj (members : List (String × Json))

/-- The character U+007B. -/
def jsonOpenBrace : Char := Char.ofNat 123

/-- The character U+007D. -/
def jsonCloseBrace : Char := Char.ofNat 125

/-- Python dict insertion: replace in place, else append. -/
def upsert (k : String) (v : Json) : List (String × Json) → List (String × Json)
  | [] => [(k, v)]
  | (k', v') :: rest => if k' = k then (k, v) :: rest else (k', v') :: upsert k v rest

/-- JSON whitespace. -/
def jsonWs (c : Char) : Bool :=
  c = ' ' || c = '\t' || c = '\n' || c = '\r'

/-- Skip leading JSON whitespace. -/
def skipWs : List Char → List Char
  | [] => []
  | c :: rest => if jsonWs c then skipWs rest else c :: rest

/-- Decode a JSON string escape character. -/
def escChar (e : Char) : Option Char :=
  if e = '"' then some '"'
  else if e = '\\' then some '\\'
  else if e = '/' then some '/'
  else if e = 'n' then some '\n'
  else if e = 't' then some '\t'
  else if e = 'r' then some '\r'
  else if e = 'b' then some (Char.ofNat 8)
  else if e = 'f' then some (Char.ofNat 12)
  else none

/-- Parse a JSON string body (after the opening quote), returning the
decoded characters and the remainder after the closing quote. -/
def parseJStringBody : List Char → Except Unit (List Char × List Char)
  | [] => .error ()
  | '"' :: rest => .ok ([], rest)
  | '\\' :: e :: rest =>
    (match escChar e with
     | some ec =>
       match parseJStringBody rest with
       | .ok (l, r) => .ok (ec :: l, r)
       | .error _ => .error ()
     | none => .error ())
  | ['\\'] => .error ()
  | c :: rest =>
    match parseJStringBody rest with
    | .ok (l, r) => .ok (c :: l, r)
    | .error _ => .error ()

/-- Parse an optional JSON exponent suffix. -/
def parseJNumExpTail (mant : ℚ) (cs : List Char) : Except Unit (ℚ × List Char) :=
  let (es, cs2) : Int × List Char :=
    match cs with
    | '-' :: r => (-1, r)
    | '+' :: r => (1, r)
    | r => (1, r)
  let (ed, r) := spanDigits cs2
  if ed = [] then .error ()
  else .ok (mant * (10 : ℚ) ^ (es * (digitsVal ed : Int)), r)

/-- Dispatch on a possible exponent marker. -/
def parseJNumExp (mant : ℚ) (cs : List Char) : Except Unit (ℚ × List Char) :=
  match cs with
  | 'e' :: rest => parseJNumExpTail mant rest
  | 'E' :: rest => parseJNumExpTail mant rest
  | _ => .ok (mant, cs)

/-- Parse a JSON number (strict grammar: no leading zeros, fraction and
exponent require at least one digit). -/
def parseJNum (cs : List Char) : Except Unit (ℚ × List Char) :=
  let (sgn, cs1) : ℚ × List Char :=
    match cs with
    | '-' :: r => (-1, r)
    | r => (1, r)
  let (ip, r1) := spanDigits cs1
  if ip = [] then .error ()
  else if ip.length > 1 ∧ ip.headD 'x' = '0' then .error ()
  else
    match r1 with
    | '.' :: rest =>
      let (fp, r2) := spanDigits rest
      if fp = [] then .error ()
      else
        parseJNumExp
          (sgn * ((digitsVal ip : ℚ) + (digitsVal fp : ℚ) / (10 : ℚ) ^ fp.length)) r2
    | _ => parseJNumExp (sgn * (digitsVal ip : ℚ)) r1

/-- Expect a literal character sequence. -/
def expectLit (lit : List Char) (cs : List Char) : Except Unit (List Char) :=
  if lit.isPrefixOf cs then .ok (cs.drop lit.length) else .error ()

/-- The three parsing modes of the recursive-descent JSON parser (a
value; the members of an object after its opening brace or a comma; the
elements of an array), folded into one function so that the recursion is
structural on the fuel and kernel-reducible. -/
inductive JParseMode where
  | val
  | objMembers (acc : List (String × Json))
  | arrElems (acc : List Json)

/-- Fuel-driven JSON parser step. -/
def parseJsonStep : Nat → JParseMode → List Char → Except Unit (Json × List Char)
  | 0, _, _ => .error ()
  | fuel + 1, .val, cs =>
    match skipWs cs with
    | [] => .error ()
    | c :: rest =>
      if c = '"' then
        match parseJStringBody rest with
        | .ok (l, r) => .ok (.str (String.mk l), r)
        | .error _ => .error ()
      else if c = jsonOpenBrace then
        parseJsonStep fuel (.objMembers []) (skipWs rest)
      else if c = '[' then
        parseJsonStep fuel (.arrElems []) (skipWs rest)
      else if c = 't' then
        match expectLit ['r', 'u', 'e'] rest with
        | .ok r => .ok (.bool true, r)
        | .error _ => .error ()
      else if c = 'f' then
        match expectLit ['a', 'l', 's', 'e'] rest with
        | .ok r => .ok (.bool false, r)
        | .error _ => .error ()
      else if c = 'n' then
        match expectLit ['u', 'l', 'l'] rest with
        | .ok r => .ok (.null, r)
        | .error _ => .error ()
      else
        match parseJNum (c :: rest) with
        | .ok (q, r) => .ok (.num q, r)
        | .error _ => .error ()
  | fuel + 1, .objMembers acc, cs =>
    match cs with
    | [] => .error ()
    | c :: rest =>
      if c = jsonCloseBrace && acc.isEmpty then .ok (.obj [], rest)
      else if c = '"' then
        match parseJStringBody rest with
        | .error _ => .error ()
        | .ok (kl, r1) =>
          match skipWs r1 with
          | ':' :: r2 =>
            (match parseJsonStep fuel .val r2 with
             | .error _ => .error ()
             | .ok (v, r3) =>
               let acc' := upsert (String.mk kl) v acc
               match skipWs r3 with
               | ',' :: r4 => parseJsonStep fuel (.objMembers acc') (skipWs r4)
               | c' :: r4 =>
                 if c' = jsonCloseBrace then .ok (.obj acc', r4) else .error ()
               | [] => .error ())
          | _ => .error ()
      else .error ()
  | fuel + 1, .arrElems acc, cs =>
    match cs with
    | [] => .error ()
    | ']' :: rest =>
      if acc.isEmpty then .ok (.arr [], rest) else .error ()
    | cs' =>
      match parseJsonStep fuel .val cs' with
      | .error _ => .error ()
      | .ok (v, r1) =>
        match skipWs r1 with
        | ',' :: r2 => parseJsonStep fuel (.arrElems (acc ++ [v])) (skipWs r2)
        | ']' :: r2 => .ok (.arr (acc ++ [v]), r2)
        | _ => .error ()

/-- `json.loads`: parse and require full consumption (up to trailing
whitespace). -/
def jsonParse (s : String) : Except Unit Json :=
  match parseJsonStep (4 * s.length + 8) .val s.toList with
  | .ok (j, rest) => if skipWs rest = [] then .ok j else .error ()
  | .error _ => .error ()

/-!
### Anomaly model (`app/agents/base.py`) and the oracle-response parser
(`AnomalyDetectorAgent._parse_llm_response`)
-/

/-- `Anomaly` (pydantic model): `detected_at` is the `datetime.utcnow()`
call instant, modelled by an explicit clock value. -/
structure Anomaly where
  severity : String
  category : String
  description : String
  confidence : ℚ
  data : Json
  detected_at : Nat

/-- A value stored in the metrics dict. -/
inductive MetricVal where
  | nat (n : Nat)
  | rat (q : ℚ)
  | smap (l : List (String × Nat))
deriving DecidableEq, Repr

/-- `AnalysisResult` (pydantic model); `metrics : Dict[str, Any]` is an
association list so that the empty mapping of the empty-batch result and
the populated mapping of `_calculate_metrics` share one type. -/
structure AnalysisResult where
  anomalies : List Anomaly
  summary : String
  recommendations : List String
  metrics : List (String × MetricVal)

/-- First-match lookup in a JSON object. -/
def jlookup (m : List (String × Json)) (k : String) : Option Json :=
  match m with
  | [] => none
  | (k', v) :: rest => if k' = k then some v else jlookup rest k

/-- pydantic validation of a `str`-typed field.  (Cross-type coercion of a
non-string value is pydantic-version dependent and unconstrained by this
repository; every claim below only exercises string-or-missing values.) -/
def coerceStr : Json → Except Unit String
  | .str s => .ok s
  | _ => .error ()

/-- pydantic validation of a `float`-typed field (numbers and numeric
strings accepted). -/
def coerceFloat : Json → Except Unit ℚ
  | .num q => .ok q
  | .str s =>
    match pyFloatParse s with
    | some q => .ok q
    | none => .error ()
  | _ => .error ()

/-- pydantic validation of a `Dict[str, Any]`-typed field. -/
def coerceDict : Json → Except Unit (List (String × Json))
  | .obj m => .ok m
  | _ => .error ()

/-- Build one `Anomaly` from one element of the `"anomalies"` array:
`anomaly_data.get(field, default)` for each field, then the pydantic
constructor.  A non-object element models the `AttributeError` raised by
`.get` on a non-dict value. -/
def buildAnomaly (now : Nat) : Json → Except Unit Anomaly
  | .obj m => do
    let sev ← coerceStr ((jlookup m "severity").getD (.str "medium"))
    let cat ← coerceStr ((jlookup m "category").getD (.str "llm_detected"))
    let desc ← coerceStr ((jlookup m "description").getD (.str "LLM detected anomaly"))
    let conf ← coerceFloat ((jlookup m "confidence").getD (.num (1 / 2)))
    let dat ← coerceDict ((jlookup m "data").getD (.obj []))
    .ok ⟨sev, cat, desc, conf, .obj dat, now⟩
  | _ => .error ()

/-- The accumulation loop over the `"anomalies"` array: an exception from
any element is caught by the surrounding `try`, so the anomalies appended
so far are returned. -/
def buildAnomalies (now : Nat) : List Json → List Anomaly → List Anomaly
  | [], acc => acc.reverse
  | j :: rest, acc =>
    match buildAnomaly now j with
    | .ok a => buildAnomalies now rest (a :: acc)
    | .error _ => acc.reverse

/-- Index of the first occurrence of a character. -/
def firstIdx (c : Char) : List Char → Option Nat
  | [] => none
  | x :: rest => if x = c then some 0 else (firstIdx c rest).map (· + 1)

/-- Index of the last occurrence of a character (`str.rfind`). -/
def lastIdx (c : Char) (cs : List Char) : Option Nat :=
  (firstIdx c cs.reverse).map (fun k => cs.length - 1 - k)

/-- `response[response.find("\x7b") : response.rfind("\x7d") + 1]` with the
guard `json_start != -1 and json_end > json_start`. -/
def extractJsonCandidate (s : String) : Option String :=
  let cs := s.toList
  match firstIdx jsonOpenBrace cs with
  | none => none
  | some i =>
    match lastIdx jsonCloseBrace cs with
    | none => none
    | some j =>
      if i ≤ j then some (String.mk ((cs.drop i).take (j + 1 - i))) else none

/-- The `"anomalies"` key of a parsed value, when the value is an object.
(When `json.loads` yields a non-dict, every Python path through
`"anomalies" in data` / `data["anomalies"]` ends with the empty list: a
failed membership test skips the loop, and a raised `TypeError` is caught
by the surrounding `try`.) -/
def anomaliesField : Json → Option Json
  | .obj m => jlookup m "anomalies"
  | _ => none

/-- `_parse_llm_response`.  A non-array `"anomalies"` value also produces
the empty list: iterating a number raises `TypeError` (caught), iterating
a string or dict yields strings whose `.get` raises `AttributeError`
(caught) before anything is appended. -/
def parseLlmResponse (now : Nat) (response : String) : List Anomaly :=
  match extractJsonCandidate response with
  | none => []
  | some js =>
    match jsonParse js with
    | .error _ => []
    | .ok j =>
      match anomaliesField j with
      | some (.arr l) => buildAnomalies now l []
      | some _ => []
      | none => []

/-!
### Severity mapping and the statistical detector
(`_calculate_severity`, `_get_contamination_level`,
`_detect_statistical_anomalies`)

Float scores and thresholds are modelled as exact rationals (the binary
floating-point literals 0.5 / 0.3 / 0.1 differ from these rationals by
less than 2⁻⁵³, which no claim resolves).
-/

/-- `_calculate_severity`. -/
def calculateSeverity (score : ℚ) : String :=
  if |score| > 1 / 2 then "critical"
  else if |score| > 3 / 10 then "high"
  else if |score| > 1 / 10 then "medium"
  else "low"

/-- Ordinal rank of a severity word, for stating monotonicity. -/
def severityRank : String → Nat
  | "low" => 0
  | "medium" => 1
  | "high" => 2
  | "critical" => 3
  | _ => 0

/-- `_get_contamination_level`: `sensitivity_map.get(sensitivity, 0.05)`. -/
def getContaminationLevel (sensitivity : String) : ℚ :=
  if sensitivity = "low" then 1 / 100
  else if sensitivity = "medium" then 1 / 20
  else if sensitivity = "high" then 1 / 10
  else 1 / 20

/-- `f"{score:.3f}"`: fixed-point rendering with three decimals (rounding
to nearest; the half-even tie rule of float formatting is unreachable on
the rationals appearing here). -/
def formatQ3 (q : ℚ) : String :=
  let m : Int := round (q * 1000)
  let sign := if m < 0 ∨ (m = 0 ∧ q < 0) then "-" else ""
  let a := m.natAbs
  let frac := toString (a % 1000)
  let fracPad := String.mk (List.replicate (3 - frac.length) '0') ++ frac
  sign ++ toString (a / 1000) ++ "." ++ fracPad

/-- The anomaly built for one flagged row. -/
def mkStatAnomaly (now : Nat) (i : Nat) (fv : List ℚ) (score : ℚ) : Anomaly :=
  { severity := calculateSeverity score
    category := "statistical_outlier"
    description := "Statistical anomaly detected with score: " ++ formatQ3 score
    confidence := |score|
    data := .obj [("row_index", .num i), ("features", .arr (fv.map (.num ·))),
                  ("anomaly_score", .num score)]
    detected_at := now }

/-- The `for i, (label, score) in enumerate(zip(labels, scores))` loop;
`features[i]` raises `IndexError` (uncaught) if the model returned more
rows than the feature matrix has. -/
def statLoop (now : Nat) (features : List (List ℚ)) :
    List (Nat × Int × ℚ) → Except Unit (List Anomaly)
  | [] => .ok []
  | (i, label, score) :: rest =>
    if label = -1 then
      match features.get? i with
      | none => .error ()
      | some fv => do
        let tail ← statLoop now features rest
        .ok (mkStatAnomaly now i fv score :: tail)
    else statLoop now features rest

/-- `_detect_statistical_anomalies`, parameterized by the isolation-forest
fit (`isoF contamination X` returns the `(label, score)` pair of each
row). -/
def detectStatisticalAnomalies
    (isoF : ℚ → List (List ℚ) → List (Int × ℚ))
    (now : Nat) (sensitivity : String)
    (parseTs : String → Option PyDateTime) (data : List Record) :
    Except Unit (List Anomaly) := do
  let features ← extractFeatures parseTs data
  if features.length < 10 then .ok []
  else statLoop now features ((isoF (getContaminationLevel sensitivity) features).enum)

/-!
### Pattern and frequency analyzers
(`_analyze_error_patterns`, `_analyze_frequency_patterns`,
`_detect_pattern_anomalies`)
-/

/-- A value stored in the error-pattern summary dict. -/
inductive EVal where
  | nat (n : Nat)
  | rat (q : ℚ)
  | strs (l : List String)
deriving DecidableEq, Repr

/-- The concatenated text fields scanned for error keywords:
`str(entry.get("message", "")) + str(entry.get("request", ""))`. -/
def entryText (entry : Record) : String :=
  pyStr (rlookupD entry "message" (.str "")) ++
  pyStr (rlookupD entry "request" (.str ""))

/-- `str.upper`, modelled character-wise with the ASCII `Char.toUpper`
(the markers compared against it are ASCII). -/
def pyUpper (s : String) : String :=
  String.mk (s.toList.map Char.toUpper)

/-- Whether a record counts as an error entry: any of the four markers is
a substring of the upper-cased text. -/
def isErrorEntry (entry : Record) : Bool :=
  ["ERROR", "EXCEPTION", "FAILED", "FATAL"].any
    (fun kw => containsSub kw (pyUpper (entryText entry)))

/-- `_analyze_error_patterns`: the returned dict always carries its three
keys, so as a Python dict it is always truthy. -/
def analyzeErrorPatterns (data : List Record) : List (String × EVal) :=
  let errs := data.filter isErrorEntry
  let count := errs.length
  [("error_count", .nat count),
   ("error_rate", .rat (if data = [] then 0 else (count : ℚ) / data.length)),
   ("sample_errors",
     .strs ((errs.map (fun e => String.mk ((entryText e).toList.take 200))).take 10))]

/-- A 5-minute wall-clock bucket:
`ts.replace(minute=(ts.minute // 5) * 5, second=0, microsecond=0)`. -/
def bucketOf (dt : PyDateTime) : Nat × Nat × Nat × Nat × Nat :=
  (dt.year, dt.month, dt.day, dt.hour, dt.minute / 5 * 5)

/-- `defaultdict(int)` bump preserving first-insertion order. -/
def bumpBucket (k : Nat × Nat × Nat × Nat × Nat) :
    List ((Nat × Nat × Nat × Nat × Nat) × Nat) →
    List ((Nat × Nat × Nat × Nat × Nat) × Nat)
  | [] => [(k, 1)]
  | (k', n) :: rest =>
    if k' = k then (k', n + 1) :: rest else (k', n) :: bumpBucket k rest

/-- The parsed timestamp of a record, when the `timestamp` field is
present, is a string, and parses (non-string values raise
`AttributeError` inside the `try`, skipping the record). -/
def recordTimestamp (parseTs : String → Option PyDateTime) (entry : Record) :
    Option PyDateTime :=
  match rlookup entry "timestamp" with
  | some (.str s) => parseTs (pyReplaceZ s)
  | _ => none

/-- The 5-minute bucket table of `_analyze_frequency_patterns`. -/
def timeGroups (parseTs : String → Option PyDateTime) (data : List Record) :
    List ((Nat × Nat × Nat × Nat × Nat) × Nat) :=
  data.foldl
    (fun acc e =>
      match recordTimestamp parseTs e with
      | some dt => bumpBucket (bucketOf dt) acc
      | none => acc) []

/-- The frequency summary, identified with the list of bucket counts it is
computed from.  The five derived statistics (mean, std, max, min,
coefficient of variation) are real-valued (`np.mean` / `np.std`) and flow
only into an oracle prompt; the single property of the summary consumed by
control flow — and by the claims — is whether the returned dict is empty
(`return \x7b\x7d` when no timestamp parses). -/
def analyzeFrequencyPatterns (parseTs : String → Option PyDateTime)
    (data : List Record) : Option (List Nat) :=
  let groups := timeGroups parseTs data
  if groups.isEmpty then none else some (groups.map (fun g => g.2))

/-- The guard of `_detect_pattern_anomalies`:
`if error_patterns or frequency_anomalies:` — Python truthiness of the two
summary dicts. -/
def patternOracleInvoked (parseTs : String → Option PyDateTime)
    (data : List Record) : Bool :=
  !(analyzeErrorPatterns data).isEmpty ||
  (analyzeFrequencyPatterns parseTs data).isSome

/-- `_detect_pattern_anomalies`, with `patternResp` the outcome of the
`_analyze_with_llm` oracle round trip (`Except.error` = the call raised,
caught at the call site, yielding the empty list). -/
def detectPatternAnomalies (patternResp : Except Unit String) (now : Nat)
    (parseTs : String → Option PyDateTime) (data : List Record) :
    List Anomaly :=
  if patternOracleInvoked parseTs data then
    match patternResp with
    | .ok text => parseLlmResponse now text
    | .error _ => []
  else []

/-!
### Semantic path, summary, recommendations, metrics
(`_extract_text_samples`, `_detect_semantic_anomalies`,
`_generate_summary`, `_generate_recommendations`, `_calculate_metrics`)
-/

/-- `_extract_text_samples`: the truthy text-bearing fields of each
record, joined with " | "; records with no such field contribute no
sample. -/
def extractTextSamples (data : List Record) : List String :=
  data.filterMap (fun e =>
    let parts := ["message", "request", "error", "description"].filterMap
      (fun f =>
        match rlookup e f with
        | some v => if pyTruthy v then some (pyStr v) else none
        | none => none)
    if parts.isEmpty then none else some (String.intercalate " | " parts))

/-- `_detect_semantic_anomalies`. -/
def detectSemanticAnomalies (semanticResp : Except Unit String) (now : Nat)
    (data : List Record) : List Anomaly :=
  if (extractTextSamples data).isEmpty then []
  else
    match semanticResp with
    | .ok text => parseLlmResponse now text
    | .error _ => []

/-- The deterministic fallback sentence of `_generate_summary`. -/
def summaryTemplate (anomalyCount recordCount : Nat) : String :=
  "Analysis completed: " ++ toString anomalyCount ++
  " anomalies detected in " ++ toString recordCount ++ " log entries."

/-- `_generate_summary`: the oracle text on success, the deterministic
template on failure. -/
def generateSummary (summaryResp : Except Unit String)
    (recordCount : Nat) (anomalies : List Anomaly) : String :=
  match summaryResp with
  | .ok content => content
  | .error _ => summaryTemplate anomalies.length recordCount

/-- The bullet-line parse of the recommendations response: kept lines are
non-blank after `strip()` and start with "-" or with the three-character
sequence "â€¢"; the kept text drops the first character and strips
again. -/
def parseBulletLines (content : String) : List String :=
  (content.splitOn "\n").filterMap (fun line =>
    let l := line.trim
    if l ≠ "" ∧ (l.startsWith "-" ∨ l.startsWith "â€¢") then
      some ((l.drop 1).trim)
    else none)

/-- `_generate_recommendations`. -/
def generateRecommendations (recsResp : Except Unit String)
    (anomalies : List Anomaly) : List String :=
  if anomalies.isEmpty then
    ["No anomalies detected. System appears healthy."]
  else
    match recsResp with
    | .error _ => ["Review detected anomalies and take appropriate action."]
    | .ok content =>
      let recs := parseBulletLines content
      if recs.isEmpty then
        ["Review detected anomalies and take appropriate action."]
      else recs

/-- `Counter` bump over severity strings, preserving first-occurrence
order. -/
def bumpCount (k : String) : List (String × Nat) → List (String × Nat)
  | [] => [(k, 1)]
  | (k', n) :: rest =>
    if k' = k then (k', n + 1) :: rest else (k', n) :: bumpCount k rest

/-- `Counter(anomaly.severity for anomaly in anomalies)`. -/
def severityCounts (anomalies : List Anomaly) : List (String × Nat) :=
  anomalies.foldl (fun acc a => bumpCount a.severity acc) []

/-- `severity_counts.get(k, 0)`. -/
def countGetD (l : List (String × Nat)) (k : String) : Nat :=
  match l with
  | [] => 0
  | (k', n) :: rest => if k' = k then n else countGetD rest k

/-- `_calculate_metrics`. -/
def calculateMetrics (data : List Record) (anomalies : List Anomaly) :
    List (String × MetricVal) :=
  let total := data.length
  let totalAnoms := anomalies.length
  let sc := severityCounts anomalies
  [("total_entries_analyzed", .nat total),
   ("total_anomalies_detected", .nat totalAnoms),
   ("anomaly_rate", .rat (if total > 0 then (totalAnoms : ℚ) / total else 0)),
   ("severity_breakdown", .smap sc),
   ("critical_anomalies", .nat (countGetD sc "critical")),
   ("high_anomalies", .nat (countGetD sc "high")),
   ("medium_anomalies", .nat (countGetD sc "medium")),
   ("low_anomalies", .nat (countGetD sc "low"))]

/-!
### The aggregator (`AnomalyDetectorAgent.analyze`)
-/

/-- The outcome of each of the four oracle round trips made by one
`analyze` invocation (`LLMManager.generate_response` at the
pattern-interpretation, semantic-content, summary and recommendations
call sites); `Except.error` models a raised/timed-out call. -/
structure OracleBehavior where
  patternResp : Except Unit String
  semanticResp : Except Unit String
  summaryResp : Except Unit String
  recsResp : Except Unit String

/-- The oracle behavior in which every call fails. -/
def failingOracle : OracleBehavior :=
  ⟨.error (), .error (), .error (), .error ()⟩

/-- `analyze`: the empty batch short-circuits to the degenerate result;
otherwise the three detection paths run, then summary, recommendations
and metrics.  The `Except` layer carries the uncaught `ValueError` of the
feature-extraction status slot. -/
def analyze (ob : OracleBehavior)
    (isoF : ℚ → List (List ℚ) → List (Int × ℚ)) (now : Nat)
    (sensitivity : String) (parseTs : String → Option PyDateTime)
    (data : List Record) : Except Unit AnalysisResult :=
  if data.isEmpty then
    .ok { anomalies := []
          summary := "No data provided for analysis"
          recommendations := []
          metrics := [] }
  else do
    let statistical ← detectStatisticalAnomalies isoF now sensitivity parseTs data
    let pattern := detectPatternAnomalies ob.patternResp now parseTs data
    let semantic := detectSemanticAnomalies ob.semanticResp now data
    let allAnomalies := statistical ++ pattern ++ semantic
    let summary := generateSummary ob.summaryResp data.length allAnomalies
    let recommendations := generateRecommendations ob.recsResp allAnomalies
    let metrics := calculateMetrics data allAnomalies
    .ok { anomalies := allAnomalies
          summary := summary
          recommendations := recommendations
          metrics := metrics }

/-!
### Predicates used to state the feature-extraction claims
-/

/-- The status slot cannot raise: whenever the `status` field is present
and its string passes `isdigit`, `int()` accepts it. -/
def statusSafe (entry : Record) : Prop :=
  ∀ v, rlookup entry "status" = some v →
    pyIsDigit (pyStr v) = true → pyIntSucceeds (pyStr v) = true

/-- The `status` field is absent or non-numeric (fails `isdigit`). -/
def statusNonNumeric (entry : Record) : Prop :=
  ∀ v, rlookup entry "status" = some v → pyIsDigit (pyStr v) = false

/-- The `response_time` field is absent or unparseable by `float()`. -/
def latencyUnparsed (entry : Record) : Prop :=
  ∀ v, rlookup entry "response_time" = some v → pyFloat v = none

/-- The three status features appended for a numeric status value. -/
def statusTriple (st : Int) : List ℚ :=
  [(st : ℚ), if 400 ≤ st ∧ st < 500 then 1 else 0,
   if 500 ≤ st ∧ st < 600 then 1 else 0]

/-- Forget the `detected_at` stamp of an anomaly (used to state what part
of the parser output depends only on the text). -/
def eraseTime (a : Anomaly) : Anomaly :=
  { a with detected_at := 0 }

/-!
## Theorems
-/

theorem exceptOkBind {α β : Type} (a : α) (f : α → Except Unit β) :
    (Except.ok a >>= f) = f a := rfl

theorem exceptErrBind {α β : Type} (f : α → Except Unit β) :
    ((Except.error () : Except Unit α) >>= f) = .error () := rfl

theorem exceptErrBindE {α β : Type} (e : Unit) (f : α → Except Unit β) :
    ((Except.error e : Except Unit α) >>= f) = .error e := rfl

theorem exceptMapErr {α β : Type} (f : α → β) (e : Unit) :
    (Except.error e : Except Unit α).map f = .error e := rfl

theorem exceptMapOk {α β : Type} (f : α → β) (a : α) :
    (Except.ok a : Except Unit α).map f = .ok (f a) := rfl

theorem exceptBindOk {α β : Type} {x : Except Unit α} {f : α → Except Unit β}
    {b : β} : (x >>= f) = .ok b ↔ ∃ a, x = .ok a ∧ f a = .ok b := by
  cases x with
  | ok a => simp [exceptOkBind]
  | error e => cases e; simp [exceptErrBind]

/-- C1: for the empty input batch, `analyze([])` returns the degenerate
`AnalysisResult` (no anomalies, the fixed "no data" summary, empty
recommendations, empty metrics) regardless of the oracle behavior, the
isolation-forest fit, the clock and the timestamp parser — so no
detection path and no oracle call can influence (or be needed for) the
result. -/
theorem c1_empty_batch_short_circuits (ob : OracleBehavior)
    (isoF : ℚ → List (List ℚ) → List (Int × ℚ)) (now : Nat)
    (sensitivity : String) (parseTs : String → Option PyDateTime) :
    analyze ob isoF now sensitivity parseTs [] =
      .ok { anomalies := []
            summary := "No data provided for analysis"
            recommendations := []
            metrics := [] } := rfl

/-- C5: the severity mapping is the monotone step function of the
absolute score: "critical" iff 1/2 < |s|, "high" iff 3/10 < |s| ≤ 1/2,
"medium" iff 1/10 < |s| ≤ 3/10, "low" iff |s| ≤ 1/10, and a strictly
smaller absolute score is never mapped to a more severe level. -/
theorem c5_severity_step_monotone :
    (∀ s : ℚ,
      (calculateSeverity s = "critical" ↔ 1 / 2 < |s|) ∧
      (calculateSeverity s = "high" ↔ 3 / 10 < |s| ∧ |s| ≤ 1 / 2) ∧
      (calculateSeverity s = "medium" ↔ 1 / 10 < |s| ∧ |s| ≤ 3 / 10) ∧
      (calculateSeverity s = "low" ↔ |s| ≤ 1 / 10)) ∧
    (∀ s1 s2 : ℚ, |s1| < |s2| →
      severityRank (calculateSeverity s1) ≤ severityRank (calculateSeverity s2)) := by
  have hchar : ∀ s : ℚ,
      (calculateSeverity s = "critical" ↔ 1 / 2 < |s|) ∧
      (calculateSeverity s = "high" ↔ 3 / 10 < |s| ∧ |s| ≤ 1 / 2) ∧
      (calculateSeverity s = "medium" ↔ 1 / 10 < |s| ∧ |s| ≤ 3 / 10) ∧
      (calculateSeverity s = "low" ↔ |s| ≤ 1 / 10) := by
    intro s
    unfold calculateSeverity
    split_ifs with h1 h2 h3
    · exact ⟨⟨fun _ => h1, fun _ => rfl⟩,
        ⟨fun h => absurd h (by decide), fun h => absurd h.2 (by linarith)⟩,
        ⟨fun h => absurd h (by decide), fun h => absurd h.2 (by linarith)⟩,
        ⟨fun h => absurd h (by decide), fun h => absurd h (by linarith)⟩⟩
    · exact ⟨⟨fun h => absurd h (by decide), fun h => absurd h (by linarith)⟩,
        ⟨fun _ => ⟨h2, by linarith⟩, fun _ => rfl⟩,
        ⟨fun h => absurd h (by decide), fun h => absurd h.2 (by linarith)⟩,
        ⟨fun h => absurd h (by decide), fun h => absurd h (by linarith)⟩⟩
    · exact ⟨⟨fun h => absurd h (by decide), fun h => absurd h (by linarith)⟩,
        ⟨fun h => absurd h (by decide), fun h => absurd h.1 (by linarith)⟩,
        ⟨fun _ => ⟨h3, by linarith⟩, fun _ => rfl⟩,
        ⟨fun h => absurd h (by decide), fun h => absurd h (by linarith)⟩⟩
    · exact ⟨⟨fun h => absurd h (by decide), fun h => absurd h (by linarith)⟩,
        ⟨fun h => absurd h (by decide), fun h => absurd h.1 (by linarith)⟩,
        ⟨fun h => absurd h (by decide), fun h => absurd h.1 (by linarith)⟩,
        ⟨fun _ => by linarith, fun _ => rfl⟩⟩
  refine ⟨hchar, fun s1 s2 h => ?_⟩
  unfold calculateSeverity severityRank
  split_ifs with h1 h2 h3 h4 h5 h6 h7 h8 h9 <;>
    first
      | rfl
      | exact Nat.zero_le _
      | exact Nat.le_succ _
      | decide
      | linarith

/-- Witness for C5 at concrete scores 0 and 1. -/
theorem c5_witness :
    severityRank (calculateSeverity 0) ≤ severityRank (calculateSeverity 1) :=
  c5_severity_step_monotone.2 0 1 (by norm_num)

/-- Counterexample for C6: a one-record batch whose error count is 0 and
in which no timestamp parses, yet the guard
`if error_patterns or frequency_anomalies:` is true (the error-pattern
dict always carries its three keys), so the oracle round trip IS
attempted. -/
theorem c6_counterexample_oracle_called_despite_trivial_summaries :
    analyzeErrorPatterns [[("message", PyVal.str "hello")]] =
      [("error_count", .nat 0), ("error_rate", .rat 0),
       ("sample_errors", .strs [])] ∧
    analyzeFrequencyPatterns (fun _ => none) [[("message", PyVal.str "hello")]] =
      none ∧
    patternOracleInvoked (fun _ => none) [[("message", PyVal.str "hello")]] =
      true := by
  have hf : List.filter isErrorEntry [[("message", PyVal.str "hello")]] = [] := by
    decide
  exact ⟨by simp [analyzeErrorPatterns, hf], rfl, rfl⟩

/-- C6 (amended): the error-pattern summary mapping is never empty (it
always holds its three keys), so the truthiness guard of the pattern path
is vacuous: the summaries are handed to the oracle for EVERY batch, and
the pattern path contributes exactly what the oracle round trip produces
(the empty list only when the call fails, or when its response parses to
no anomalies). -/
theorem c6_amended_pattern_oracle_always_invoked
    (parseTs : String → Option PyDateTime) (data : List Record) :
    patternOracleInvoked parseTs data = true ∧
    ∀ (resp : Except Unit String) (now : Nat),
      detectPatternAnomalies resp now parseTs data =
        match resp with
        | .ok text => parseLlmResponse now text
        | .error _ => [] := by
  have h : patternOracleInvoked parseTs data = true := by
    simp [patternOracleInvoked, analyzeErrorPatterns]
  exact ⟨h, fun resp now => by simp [detectPatternAnomalies, h]⟩


theorem length_three_cases {α : Type} {l : List α} (h : l.length = 3) :
    ∃ a b c, l = [a, b, c] := by
  rcases l with _ | ⟨a, l⟩
  · simp at h
  rcases l with _ | ⟨b, l⟩
  · simp at h
  rcases l with _ | ⟨c, l⟩
  · simp at h
  rcases l with _ | ⟨d, l⟩
  · exact ⟨a, b, c, rfl⟩
  · simp at h

theorem length_four_cases {α : Type} {l : List α} (h : l.length = 4) :
    ∃ a b c d, l = [a, b, c, d] := by
  rcases l with _ | ⟨a, l⟩
  · simp at h
  rcases l with _ | ⟨b, l⟩
  · simp at h
  rcases l with _ | ⟨c, l⟩
  · simp at h
  rcases l with _ | ⟨d, l⟩
  · simp at h
  rcases l with _ | ⟨e, l⟩
  · exact ⟨a, b, c, d, rfl⟩
  · simp at h

theorem temporalFeatures_eq (parseTs : String → Option PyDateTime) (entry : Record) :
    temporalFeatures parseTs entry =
      match recordTimestamp parseTs entry with
      | some dt => [(dt.hour : ℚ), dt.weekday, dt.day, dt.month]
      | none => [0, 0, 0, 0] := by
  unfold temporalFeatures recordTimestamp
  rcases hl : rlookup entry "timestamp" with _ | v
  · simp only [hl]
  · cases v <;> simp only [hl]

theorem temporalFeatures_length (parseTs : String → Option PyDateTime)
    (entry : Record) : (temporalFeatures parseTs entry).length = 4 := by
  rw [temporalFeatures_eq]
  rcases recordTimestamp parseTs entry with _ | dt <;> rfl

theorem temporalFeatures_default {parseTs : String → Option PyDateTime}
    {entry : Record} (h : recordTimestamp parseTs entry = none) :
    temporalFeatures parseTs entry = [0, 0, 0, 0] := by
  rw [temporalFeatures_eq, h]

theorem statusFeatures_of_safe {entry : Record} (h : statusSafe entry) :
    ∃ st, statusFeatures entry = .ok st ∧ st.length = 3 ∧
      (statusNonNumeric entry → st = [0, 0, 0]) := by
  rcases hv : rlookup entry "status" with _ | v
  · exact ⟨[0, 0, 0], by simp [statusFeatures, hv], rfl, fun _ => rfl⟩
  · by_cases hd : pyIsDigit (pyStr v) = true
    · have hint := h v hv hd
      obtain ⟨n, hn⟩ : ∃ n, pyInt (pyStr v) = .ok n := by
        unfold pyInt
        rw [hint]
        exact ⟨_, rfl⟩
      refine ⟨statusTriple n, ?_, rfl,
        fun hnn => absurd hd (by rw [hnn v hv]; simp)⟩
      simp [statusFeatures, hv, hd, hn, exceptOkBind, statusTriple]
    · rw [Bool.not_eq_true] at hd
      exact ⟨[0, 0, 0], by simp [statusFeatures, hv, hd], rfl, fun _ => rfl⟩

theorem extractFeatures_length {parseTs : String → Option PyDateTime} :
    ∀ {data : List Record} {fs : List (List ℚ)},
      extractFeatures parseTs data = .ok fs → fs.length = data.length := by
  intro data
  induction data with
  | nil =>
    intro fs h
    simp only [extractFeatures] at h
    cases h
    rfl
  | cons e rest ih =>
    intro fs h
    simp only [extractFeatures] at h
    obtain ⟨v, hv, h⟩ := exceptBindOk.mp h
    obtain ⟨vs, hvs, h⟩ := exceptBindOk.mp h
    cases h
    simp [ih hvs]

/-- Counterexample for C2: the record whose `status` field is the string
"²" (U+00B2, SUPERSCRIPT TWO).  `str.isdigit()` accepts it, so the guard
takes the `int()` branch, and `int("²")` raises `ValueError` outside any
`try`: the Feature Extractor does NOT return a 12-vector for this
record. -/
theorem c2_counterexample_superscript_status :
    extractFeatureVector (fun _ => none) [("status", PyVal.str "²")] =
      .error () := rfl

/-- C2 (amended): for every record whose `status` value does not stringify
to an `isdigit`-true string rejected by `int()` (the superscript/subscript
digit strings), the Feature Extractor returns a vector of exactly 12
numbers, and the default 0 fills every slot whose source field is missing
or unparseable: the four temporal slots when the timestamp is absent,
non-string or unparseable; the three status slots when `status` is absent
or fails `isdigit`; the latency slot when `response_time` is absent or
unparseable. -/
theorem c2_amended_feature_vector_shape
    (parseTs : String → Option PyDateTime) (entry : Record)
    (h : statusSafe entry) :
    ∃ v, extractFeatureVector parseTs entry = .ok v ∧ v.length = 12 ∧
      (recordTimestamp parseTs entry = none → v.take 4 = [0, 0, 0, 0]) ∧
      (statusNonNumeric entry → (v.drop 4).take 3 = [0, 0, 0]) ∧
      (latencyUnparsed entry → v.get? 7 = some 0) := by
  obtain ⟨st, hst, hlen3, hdef⟩ := statusFeatures_of_safe h
  obtain ⟨s1, s2, s3, h3⟩ := length_three_cases hlen3
  subst h3
  obtain ⟨t1, t2, t3, t4, h4⟩ := length_four_cases (temporalFeatures_length parseTs entry)
  refine ⟨temporalFeatures parseTs entry ++ [s1, s2, s3] ++ [latencyFeature entry] ++
    textFeatures entry, ?_, ?_, ?_, ?_, ?_⟩
  · simp [extractFeatureVector, hst, exceptOkBind]
  · rw [h4]
    rfl
  · intro hts
    rw [temporalFeatures_default hts]
    rfl
  · intro hnn
    have := hdef hnn
    injection this with e1 this
    injection this with e2 this
    injection this with e3 _
    subst e1; subst e2; subst e3
    rw [h4]
    rfl
  · intro hl
    have hlat : latencyFeature entry = 0 := by
      unfold latencyFeature
      rcases hv : rlookup entry "response_time" with _ | v
      · simp only [hv]
      · simp only [hv, hl v hv]
        rfl
    rw [h4, hlat]
    rfl

/-- Witness for C2 at the empty record (every hypothesis discharged
concretely). -/
theorem c2_witness :
    statusSafe [] ∧
    ∃ v, extractFeatureVector (fun _ => none) [] = .ok v ∧ v.length = 12 := by
  have hsafe : statusSafe [] := fun v hv => by simp [rlookup] at hv
  obtain ⟨v, h1, h2, _⟩ := c2_amended_feature_vector_shape (fun _ => none) [] hsafe
  exact ⟨hsafe, v, h1, h2⟩

/-- C3 is a code bug: feature extraction is NOT total.  Evaluating the
batch extractor at the failing input — a record with
`status = "²"` (U+00B2) — shows the uncaught `ValueError` of
`int(entry["status"])` escaping `_extract_features` and failing the whole
batch, while the spec (and the guard's evident intent) promise per-slot
degradation and no raise for any string status value. -/
theorem c3_code_bug_extraction_raises :
    extractFeatures (fun _ => none)
      [[("message", PyVal.str "boom"), ("status", PyVal.str "²")]] =
      .error () := rfl

/-- C4 (amended): for every batch with fewer than 10 records on which
feature extraction does not raise (no superscript/subscript-digit status
string), the Statistical Detector returns the empty anomaly list — an
empty result, not an error — regardless of the isolation-forest fit, the
sensitivity, the clock and the timestamp parser. -/
theorem c4_amended_small_batch_returns_empty
    (isoF : ℚ → List (List ℚ) → List (Int × ℚ)) (now : Nat)
    (sensitivity : String) (parseTs : String → Option PyDateTime)
    (data : List Record) {fs : List (List ℚ)}
    (hlen : data.length < 10)
    (hex : extractFeatures parseTs data = .ok fs) :
    detectStatisticalAnomalies isoF now sensitivity parseTs data = .ok [] := by
  have hfs := extractFeatures_length hex
  unfold detectStatisticalAnomalies
  rw [hex, exceptOkBind, hfs, if_pos hlen]

/-- Counterexample for C4: a one-record batch (fewer than 10 records) on
which the Statistical Detector raises instead of returning the empty
list, because feature extraction raises on the status slot. -/
theorem c4_counterexample_superscript_status_raises :
    detectStatisticalAnomalies (fun _ _ => []) 0 "medium" (fun _ => none)
      [[("status", PyVal.str "²"), ("request", PyVal.str "r")]] =
      .error () := rfl

/-- Witness for C4 at a concrete one-record batch. -/
theorem c4_witness :
    detectStatisticalAnomalies (fun _ _ => []) 0 "medium" (fun _ => none)
      [[("message", PyVal.str "ok")]] = .ok [] :=
  c4_amended_small_batch_returns_empty (fun _ _ => []) 0 "medium" (fun _ => none)
    [[("message", PyVal.str "ok")]] (by decide) rfl

/-- C7: the oracle-response parser returns the empty anomaly list whenever
the text has no first-brace/last-brace candidate substring, the candidate
fails to parse, or the parsed value lacks an "anomalies" key; and every
field missing from an individual anomaly object is filled with the
documented default (severity "medium", category "llm_detected",
description "LLM detected anomaly", confidence 0.5, empty evidence
mapping).  The parser is a total function of the text (and the clock):
every exception path of the Python code is caught by its surrounding
`try` and lands in one of the branches modelled here, so no parse failure
reaches the caller. -/
theorem c7_parse_contract :
    (∀ (now : Nat) (s : String), extractJsonCandidate s = none →
        parseLlmResponse now s = []) ∧
    (∀ (now : Nat) (s js : String), extractJsonCandidate s = some js →
        jsonParse js = .error () → parseLlmResponse now s = []) ∧
    (∀ (now : Nat) (s js : String) (j : Json), extractJsonCandidate s = some js →
        jsonParse js = .ok j → anomaliesField j = none →
        parseLlmResponse now s = []) ∧
    (∀ (now : Nat) (m : List (String × Json)) (a : Anomaly),
        buildAnomaly now (.obj m) = .ok a →
        (jlookup m "severity" = none → a.severity = "medium") ∧
        (jlookup m "category" = none → a.category = "llm_detected") ∧
        (jlookup m "description" = none → a.description = "LLM detected anomaly") ∧
        (jlookup m "confidence" = none → a.confidence = 1 / 2) ∧
        (jlookup m "data" = none → a.data = .obj [])) := by
  refine ⟨?_, ?_, ?_, ?_⟩
  · intro now s hc
    unfold parseLlmResponse
    simp only [hc]
  · intro now s js hc hj
    unfold parseLlmResponse
    simp only [hc, hj]
  · intro now s js j hc hj hano
    unfold parseLlmResponse
    simp only [hc, hj, hano]
  · intro now m a hb
    simp only [buildAnomaly] at hb
    obtain ⟨sev, hsev, hb⟩ := exceptBindOk.mp hb
    obtain ⟨cat, hcat, hb⟩ := exceptBindOk.mp hb
    obtain ⟨desc, hdesc, hb⟩ := exceptBindOk.mp hb
    obtain ⟨conf, hconf, hb⟩ := exceptBindOk.mp hb
    obtain ⟨dat, hdat, hb⟩ := exceptBindOk.mp hb
    injection hb with hb
    subst hb
    refine ⟨?_, ?_, ?_, ?_, ?_⟩ <;> intro hnone
    · rw [hnone] at hsev
      simp only [Option.getD, coerceStr] at hsev
      injection hsev with hsev
      exact hsev.symm
    · rw [hnone] at hcat
      simp only [Option.getD, coerceStr] at hcat
      injection hcat with hcat
      exact hcat.symm
    · rw [hnone] at hdesc
      simp only [Option.getD, coerceStr] at hdesc
      injection hdesc with hdesc
      exact hdesc.symm
    · rw [hnone] at hconf
      simp only [Option.getD, coerceFloat] at hconf
      injection hconf with hconf
      exact hconf.symm
    · rw [hnone] at hdat
      simp only [Option.getD, coerceDict] at hdat
      injection hdat with hdat
      exact congrArg Json.obj hdat.symm

/-- Witness for C7: a braceless text parses to the empty list, and the
empty anomaly object receives all five defaults. -/
theorem c7_witness :
    parseLlmResponse 3 "no json here" = [] ∧
    Anomaly.severity ⟨"medium", "llm_detected", "LLM detected anomaly",
      1 / 2, .obj [], 3⟩ = "medium" :=
  ⟨c7_parse_contract.1 3 "no json here" rfl,
   (c7_parse_contract.2.2.2 3 []
     ⟨"medium", "llm_detected", "LLM detected anomaly", 1 / 2, .obj [], 3⟩
     rfl).1 rfl⟩

theorem buildAnomaly_eraseTime (n1 n2 : Nat) (j : Json) :
    (buildAnomaly n1 j).map eraseTime = (buildAnomaly n2 j).map eraseTime := by
  cases j with
  | obj m =>
    simp only [buildAnomaly]
    cases coerceStr ((jlookup m "severity").getD (.str "medium")) <;>
      cases coerceStr ((jlookup m "category").getD (.str "llm_detected")) <;>
        cases coerceStr ((jlookup m "description").getD (.str "LLM detected anomaly")) <;>
          cases coerceFloat ((jlookup m "confidence").getD (.num (1 / 2))) <;>
            cases coerceDict ((jlookup m "data").getD (.obj [])) <;>
              simp [eraseTime, exceptOkBind, exceptErrBindE, exceptMapErr, exceptMapOk]
  | null => rfl
  | bool b => rfl
  | num q => rfl
  | str s => rfl
  | arr l => rfl

theorem buildAnomalies_eraseTime (n1 n2 : Nat) :
    ∀ (l : List Json) (acc1 acc2 : List Anomaly),
      acc1.map eraseTime = acc2.map eraseTime →
      (buildAnomalies n1 l acc1).map eraseTime =
      (buildAnomalies n2 l acc2).map eraseTime := by
  intro l
  induction l with
  | nil =>
    intro acc1 acc2 h
    simp only [buildAnomalies]
    rw [List.map_reverse, List.map_reverse, h]
  | cons j rest ih =>
    intro acc1 acc2 h
    simp only [buildAnomalies]
    have hb := buildAnomaly_eraseTime n1 n2 j
    cases h1 : buildAnomaly n1 j with
    | error e =>
      cases h2 : buildAnomaly n2 j with
      | error e2 =>
        rw [List.map_reverse, List.map_reverse, h]
      | ok a2 =>
        rw [h1, h2] at hb
        simp [exceptMapErr, exceptMapOk] at hb
    | ok a1 =>
      cases h2 : buildAnomaly n2 j with
      | error e2 =>
        rw [h1, h2] at hb
        simp [exceptMapErr, exceptMapOk] at hb
      | ok a2 =>
        rw [h1, h2] at hb
        rw [exceptMapOk, exceptMapOk] at hb
        injection hb with hb
        apply ih
        simp [h, hb]

/-- Counterexample for C8: on the response text consisting of an
"anomalies" array holding one empty object, two parser calls at distinct
clock instants produce different anomaly lists — the `detected_at` field
of an `Anomaly` is `datetime.utcnow()` at parse time, so "all fields of
every Anomaly equal between the two calls" fails. -/
theorem c8_counterexample_detected_at_differs :
    parseLlmResponse 0 "\x7b\"anomalies\": [\x7b\x7d]\x7d" ≠
    parseLlmResponse 1 "\x7b\"anomalies\": [\x7b\x7d]\x7d" := by
  intro h
  have h0 : (parseLlmResponse 0 "\x7b\"anomalies\": [\x7b\x7d]\x7d").map
      Anomaly.detected_at = [0] := rfl
  have h1 : (parseLlmResponse 1 "\x7b\"anomalies\": [\x7b\x7d]\x7d").map
      Anomaly.detected_at = [1] := rfl
  rw [h] at h0
  rw [h0] at h1
  exact absurd h1 (by decide)

/-- C8 (amended): the oracle-response parser is pure given the text up to
the `detected_at` stamp: two calls on the same raw text at any two clock
instants yield anomaly lists that agree in every field except possibly
`detected_at` (which is the wall-clock instant of the call). -/
theorem c8_amended_parser_pure_up_to_timestamp (n1 n2 : Nat) (s : String) :
    (parseLlmResponse n1 s).map eraseTime = (parseLlmResponse n2 s).map eraseTime := by
  unfold parseLlmResponse
  rcases hc : extractJsonCandidate s with _ | js
  · simp only [hc]
  · simp only [hc]
    rcases hj : jsonParse js with e | j
    · simp only [hj]
    · simp only [hj]
      rcases hano : anomaliesField j with _ | aj
      · simp only [hano]
      · cases aj with
        | arr l => exact buildAnomalies_eraseTime n1 n2 l [] [] rfl
        | null => rfl
        | bool b => rfl
        | num q => rfl
        | str s2 => rfl
        | obj m => rfl

theorem detectPatternAnomalies_error (now : Nat)
    (parseTs : String → Option PyDateTime) (data : List Record) :
    detectPatternAnomalies (.error ()) now parseTs data = [] := by
  unfold detectPatternAnomalies
  split <;> rfl

theorem detectSemanticAnomalies_error (now : Nat) (data : List Record) :
    detectSemanticAnomalies (.error ()) now data = [] := by
  unfold detectSemanticAnomalies
  split <;> rfl

theorem genRecs_ne_nil (resp : Except Unit String) (anomalies : List Anomaly) :
    generateRecommendations resp anomalies ≠ [] := by
  unfold generateRecommendations
  by_cases he : anomalies.isEmpty = true
  · rw [if_pos he]
    simp
  · rw [if_neg he]
    cases resp with
    | error e => simp
    | ok content =>
      by_cases hb : (parseBulletLines content).isEmpty = true
      · simp [hb]
      · rw [Bool.not_eq_true] at hb
        simp only [hb, Bool.false_eq_true, if_false]
        exact fun hnil => by simp [hnil] at hb

/-- C9 (amended): when every oracle call fails (throws/times out), and
the batch is non-empty and feature extraction does not raise, `analyze`
returns a structurally valid AnalysisResult whose anomalies are exactly
the statistical anomalies, whose summary is the deterministic template
"Analysis completed: n anomalies detected in m log entries." (n the
anomaly count, m the record count), with the fallback recommendations and
the metrics of the statistical list — and no oracle failure escapes to
the caller. -/
theorem c9_amended_oracle_failure_falls_back
    (isoF : ℚ → List (List ℚ) → List (Int × ℚ)) (now : Nat)
    (sensitivity : String) (parseTs : String → Option PyDateTime)
    (data : List Record) {stats : List Anomaly}
    (hne : data ≠ [])
    (hs : detectStatisticalAnomalies isoF now sensitivity parseTs data = .ok stats) :
    analyze failingOracle isoF now sensitivity parseTs data =
      .ok { anomalies := stats
            summary := summaryTemplate stats.length data.length
            recommendations := generateRecommendations (.error ()) stats
            metrics := calculateMetrics data stats } := by
  have hne' : data.isEmpty = false := by simpa [List.isEmpty_iff] using hne
  unfold analyze
  rw [hne']
  simp only [Bool.false_eq_true, if_false]
  rw [hs, exceptOkBind]
  simp [failingOracle, detectPatternAnomalies_error, detectSemanticAnomalies_error,
    generateSummary]

/-- Counterexample for C9: on a non-empty batch holding a record with
`status = "²"`, `analyze` raises (the status `ValueError` of feature
extraction) before any oracle call, instead of returning the
statistical-anomalies result promised for every non-empty batch. -/
theorem c9_counterexample_extraction_raises_before_fallback :
    analyze failingOracle (fun _ _ => []) 0 "medium" (fun _ => none)
      [[("status", PyVal.str "²"), ("message", PyVal.str "m")]] = .error () := rfl

/-- Witness for C9 at a concrete one-record batch with every oracle call
failing. -/
theorem c9_witness :
    analyze failingOracle (fun _ _ => []) 0 "medium" (fun _ => none)
      [[("message", PyVal.str "w")]] =
      .ok { anomalies := []
            summary := summaryTemplate 0 1
            recommendations := generateRecommendations (.error ()) []
            metrics := calculateMetrics [[("message", PyVal.str "w")]] [] } :=
  c9_amended_oracle_failure_falls_back (fun _ _ => []) 0 "medium" (fun _ => none)
    [[("message", PyVal.str "w")]] (by simp) rfl

/-- C10: for every anomaly list and every oracle outcome, the
recommendation generator returns a non-empty list — the fixed healthy
message on an empty anomaly list, otherwise either the parsed bullet
lines or the single fallback string; consequently `analyze` on a
non-empty batch never returns an AnalysisResult with an empty
recommendations list. -/
theorem c10_recommendations_never_empty :
    (∀ (resp : Except Unit String) (anomalies : List Anomaly),
        generateRecommendations resp anomalies ≠ [] ∧
        (anomalies = [] → generateRecommendations resp anomalies =
          ["No anomalies detected. System appears healthy."]) ∧
        (anomalies ≠ [] → (generateRecommendations resp anomalies =
            ["Review detected anomalies and take appropriate action."] ∨
          ∃ c, resp = .ok c ∧ parseBulletLines c ≠ [] ∧
            generateRecommendations resp anomalies = parseBulletLines c))) ∧
    (∀ (ob : OracleBehavior) (isoF : ℚ → List (List ℚ) → List (Int × ℚ))
        (now : Nat) (sensitivity : String)
        (parseTs : String → Option PyDateTime) (data : List Record)
        (r : AnalysisResult),
        analyze ob isoF now sensitivity parseTs data = .ok r → data ≠ [] →
        r.recommendations ≠ []) := by
  refine ⟨?_, ?_⟩
  · intro resp anomalies
    refine ⟨genRecs_ne_nil _ _, ?_, ?_⟩
    · intro h
      subst h
      simp [generateRecommendations]
    · intro h
      have hne : anomalies.isEmpty = false := by simpa [List.isEmpty_iff] using h
      unfold generateRecommendations
      rw [hne]
      simp only [Bool.false_eq_true, if_false]
      cases resp with
      | error e => exact Or.inl rfl
      | ok content =>
        by_cases hb : parseBulletLines content = []
        · left
          simp [hb]
        · right
          refine ⟨content, rfl, hb, ?_⟩
          have : (parseBulletLines content).isEmpty = false := by
            simpa [List.isEmpty_iff] using hb
          simp [this]
  · intro ob isoF now sensitivity parseTs data r hok hne
    unfold analyze at hok
    split at hok
    · rename_i h
      exact absurd (List.isEmpty_iff.mp h) hne
    · obtain ⟨stats, hst, heq⟩ := exceptBindOk.mp hok
      injection heq with heq
      subst heq
      exact genRecs_ne_nil _ _

/-- Witness for C10 at concrete inputs. -/
theorem c10_witness :
    generateRecommendations (Except.error ()) [] ≠ [] ∧
    ∃ r, analyze failingOracle (fun _ _ => []) 0 "medium" (fun _ => none)
        [[("message", PyVal.str "w2")]] = .ok r ∧ r.recommendations ≠ [] := by
  refine ⟨(c10_recommendations_never_empty.1 (Except.error ()) []).1, ?_⟩
  exact ⟨_, rfl,
    c10_recommendations_never_empty.2 failingOracle (fun _ _ => []) 0 "medium"
      (fun _ => none) [[("message", PyVal.str "w2")]] _ rfl (by simp)⟩
